import Mathlib

/-
Verification of the Lakehead crawler/scraper scripts
(`scripts/scrape_lakehead.py`, `scripts/scrape_faq.py`).

The Python sources are shallowly embedded below: pure helper functions become
Lean functions over `String`/`List`, the mutable crawler object
(`LakeheadScraper`) becomes an explicit `CrawlerState` record threaded through
the functions, HTTP fetching becomes an oracle `CrawlEnv.fetch`, and the
side effects relevant to the stated properties (`time.sleep`, `session.get`,
checkpoint saves) are recorded in an explicit event trace.

String helpers are implemented by structural recursion over `String.data`
so that all definitions evaluate inside the kernel (`decide` / `rfl`).
-/

/-! ## String utilities (semantics of the Python string operations used) -/

def charsStr (cs : List Char) : String := String.mk cs

/-- Python `str.split()` with no separator: split on whitespace runs,
dropping empty fields. -/
def splitWsAux : List Char → List Char → List String
  | [], acc => if acc = [] then [] else [charsStr acc.reverse]
  | c :: cs, acc =>
    if c.isWhitespace then
      if acc = [] then splitWsAux cs []
      else charsStr acc.reverse :: splitWsAux cs []
    else splitWsAux cs (c :: acc)

def strSplitWs (s : String) : List String := splitWsAux s.data []

/-- Python `sep.join(parts)`. -/
def joinWith (sep : String) : List String → String
  | [] => ""
  | [s] => s
  | s :: rest => s ++ sep ++ joinWith sep rest

def strMapChars (f : Char → Char) (s : String) : String := charsStr (s.data.map f)

/-- Python `str.lower()` (ASCII range, which covers the inputs used here). -/
def strToLower (s : String) : String := strMapChars Char.toLower s

/-- Python `str.strip()`. -/
def strTrim (s : String) : String :=
  charsStr (((s.data.dropWhile Char.isWhitespace).reverse.dropWhile
    Char.isWhitespace).reverse)

/-- Python `str.strip(c)` for a single character. -/
def strStripChar (c : Char) (s : String) : String :=
  charsStr (((s.data.dropWhile (· == c)).reverse.dropWhile (· == c)).reverse)

/-- Python `str.startswith`. -/
def strStartsWith (s pre : String) : Bool := pre.data.isPrefixOf s.data

/-- Python `str.endswith`. -/
def strEndsWith (s suf : String) : Bool := suf.data.isSuffixOf s.data

def subInAux (needle : List Char) : List Char → Bool
  | [] => needle.isEmpty
  | c :: t => needle.isPrefixOf (c :: t) || subInAux needle t

/-- Python `sub in s` (substring containment). -/
def strContainsSub (s sub : String) : Bool := subInAux sub.data s.data

/-- Python `c in s` for a single character. -/
def strContainsChar (s : String) (c : Char) : Bool := s.data.any (· == c)

/-- Split a character list at the first occurrence of `sep`, returning the
parts before and after it. -/
def splitFirstAux (sep : List Char) : List Char → List Char → Option (List Char × List Char)
  | [], _ => none
  | c :: t, acc =>
    if sep.isPrefixOf (c :: t) then some (acc.reverse, (c :: t).drop sep.length)
    else splitFirstAux sep t (c :: acc)

/-- `urlparse(url).netloc`: the host part between `"://"` and the next
`/`, `?` or `#` (empty when the URL has no `"://"`). -/
def urlNetloc (url : String) : String :=
  match splitFirstAux "://".data url.data [] with
  | some (_, rest) =>
      charsStr (rest.takeWhile (fun c => c != '/' && c != '?' && c != '#'))
  | none => ""

/-- `urlparse(url).path`: the path part after the host, before any query or
fragment. -/
def urlPath (url : String) : String :=
  match splitFirstAux "://".data url.data [] with
  | some (_, rest) =>
      charsStr ((rest.dropWhile (fun c => c != '/' && c != '?' && c != '#')).takeWhile
        (fun c => c != '?' && c != '#'))
  | none => charsStr (url.data.takeWhile (fun c => c != '?' && c != '#'))

/-! ## FAQ extraction (`scrape_faq.py`, `FAQScraper`)

HTML as parsed by BeautifulSoup is modelled as a tree of element and text
nodes. Attributes are not modelled: none of the extraction paths exercised by
the stated properties dispatch on attributes (the `class_=` search at
`scrape_faq.py:89` computes `category_sections`, which is never read
afterwards, and link/`href` handling only populates the `related_links`
field, which is likewise not part of the stated properties). A `QA` record
keeps the `question` and `answer` fields of the dictionaries built by
`extract_faq_qa_pairs`; the `category`/`subcategory`/`related_links`/
`keywords`/`source_url` fields do not influence which (question, answer)
pairs are produced (the only read of an existing pair is the
question-lowercase comparison at `scrape_faq.py:240`, modelled below). -/

inductive HtmlNode where
  | text (s : String)
  | elem (tag : String) (children : List HtmlNode)

structure QA where
  question : String
  answer : String
deriving DecidableEq, Repr

mutual

/-- BeautifulSoup `get_text()`: concatenation of all descendant strings. -/
def nodeText : HtmlNode → String
  | .text s => s
  | .elem _ cs => nodeTextList cs

def nodeTextList : List HtmlNode → String
  | [] => ""
  | n :: ns => nodeText n ++ nodeTextList ns

end

mutual

/-- BeautifulSoup `find_all(tags)`: matching descendant elements in document
order (an element before its own descendants). -/
def findAllTags (tags : List String) : HtmlNode → List HtmlNode
  | .text _ => []
  | .elem t cs =>
      (if t ∈ tags then [HtmlNode.elem t cs] else []) ++ findAllTagsList tags cs

def findAllTagsList (tags : List String) : List HtmlNode → List HtmlNode
  | [] => []
  | n :: ns => findAllTags tags n ++ findAllTagsList tags ns

end

mutual

/-- Matching descendant elements paired with their following siblings
(the `next_sibling` chain walked by `extract_faq_qa_pairs`, method 3). -/
def headingsWithSiblings (tags : List String) : HtmlNode → List (HtmlNode × List HtmlNode)
  | .text _ => []
  | .elem _ cs => headingsWithSiblingsList tags cs

def headingsWithSiblingsList (tags : List String) : List HtmlNode → List (HtmlNode × List HtmlNode)
  | [] => []
  | n :: ns =>
      (match n with
       | .elem t _ => if t ∈ tags then [(n, ns)] else []
       | .text _ => []) ++ headingsWithSiblings tags n ++ headingsWithSiblingsList tags ns

end

/-- `FAQScraper.clean_text` (`scrape_faq.py:49`): whitespace-normalising
join of `str.split()`, newline replacement, strip. -/
def faq_clean_text (text : String) : String :=
  if text = "" then ""
  else
    let t := joinWith " " (strSplitWs text)
    let t := strMapChars (fun c => if c == '\n' || c == '\r' then ' ' else c) t
    strTrim t

/-- First cell text of a table row: `row.find_all(['td','th'])`, then the
cleaned text of the first cell (`none` when the row has no cells). -/
def firstCellText (row : HtmlNode) : Option String :=
  match findAllTags ["td", "th"] row with
  | [] => none
  | c :: _ => some (faq_clean_text (nodeText c))

/-- The row-pairing loop of `extract_faq_qa_pairs` method 1
(`scrape_faq.py:120`): rows are consumed two at a time when a
question/answer pair passes the length thresholds, one at a time otherwise. -/
def tableRowsPairs : List HtmlNode → List QA
  | [] => []
  | [_] => []
  | r1 :: r2 :: rest2 =>
      match firstCellText r1 with
      | none => tableRowsPairs (r2 :: rest2)
      | some q =>
          match firstCellText r2 with
          | none => tableRowsPairs (r2 :: rest2)
          | some a =>
              if q ≠ "" ∧ a ≠ "" ∧ q.length > 10 ∧ a.length > 20 then
                ⟨q, a⟩ :: tableRowsPairs rest2
              else tableRowsPairs (r2 :: rest2)

/-- `extract_faq_qa_pairs` method 2 (`scrape_faq.py:164`): zip the `dt` and
`dd` descendants of a definition list. -/
def dlPairs (dl : HtmlNode) : List QA :=
  (List.zip (findAllTags ["dt"] dl) (findAllTags ["dd"] dl)).foldl
    (fun acc qa =>
      let qt := faq_clean_text (nodeText qa.1)
      let ans := faq_clean_text (nodeText qa.2)
      if qt ≠ "" ∧ ans ≠ "" then acc ++ [⟨qt, ans⟩] else acc) []

/-- The sibling walk of `extract_faq_qa_pairs` method 3 (`scrape_faq.py:207`):
block elements `p`/`div`/`ul`/`ol` and bare strings contribute their cleaned
text; a following `h3`-`h6` heading stops the walk; other elements are
skipped. -/
def answerParts : List HtmlNode → List String
  | [] => []
  | .text s :: rest =>
      let t := faq_clean_text s
      if t ≠ "" then t :: answerParts rest else answerParts rest
  | .elem tag cs :: rest =>
      if tag ∈ ["p", "div", "ul", "ol"] then
        let t := faq_clean_text (nodeText (.elem tag cs))
        if t ≠ "" then t :: answerParts rest else answerParts rest
      else if tag ∈ ["h3", "h4", "h5", "h6"] then []
      else answerParts rest

/-- `FAQScraper.extract_faq_qa_pairs` (`scrape_faq.py:66`): tables first,
then definition lists, then headings (`h3`/`h4`/`h5`/`strong`) whose text
contains `?` and exceeds 10 characters, with answers collected from following
siblings and a case-insensitive dedup against already collected questions. -/
def extract_faq_qa_pairs (root : HtmlNode) : List QA :=
  let pairs := (findAllTags ["table"] root).foldl
    (fun acc t => acc ++ tableRowsPairs (findAllTags ["tr"] t)) []
  let pairs := (findAllTags ["dl"] root).foldl
    (fun acc dl => acc ++ dlPairs dl) pairs
  (headingsWithSiblings ["h3", "h4", "h5", "strong"] root).foldl
    (fun acc hs =>
      let q := faq_clean_text (nodeText hs.1)
      if strContainsChar q '?' ∧ q.length > 10 then
        let parts := answerParts hs.2
        if parts ≠ [] then
          let ans := joinWith " " parts
          if acc.any (fun qa => strToLower qa.question == strToLower q) then acc
          else acc ++ [⟨q, ans⟩]
        else acc
      else acc) pairs

/-- The page of the FAQ end-to-end property: main content
`<p><strong>1. What is X?</strong></p><p>X is Y.</p>
<p><strong>2. What is Z?</strong></p><p>Z is W.</p>`. -/
def claimFaqPage : HtmlNode :=
  .elem "body" [
    .elem "p" [.elem "strong" [.text "1. What is X?"]],
    .elem "p" [.text "X is Y."],
    .elem "p" [.elem "strong" [.text "2. What is Z?"]],
    .elem "p" [.text "Z is W."]]


/-! ## Crawler state (`scrape_lakehead.py`, `LakeheadScraper`)

The mutable attributes of `LakeheadScraper` relevant to crawling are gathered
in `CrawlerState`. Python sets are modelled as duplicate-free lists in
insertion order (additions go through `setAdd`, which mirrors `set.add`);
`url_queue` is the `collections.deque` used with `append`/`popleft`. The
`statistics` dictionary entries become the four counter fields; the
`start_time`/`end_time` timestamps have no bearing on any stated property and
are not modelled. -/

structure CrawlerState where
  visited_urls : List String
  discovered_urls : List String
  failed_urls : List String
  content_hashes : List String
  url_queue : List String
  pages_scraped : Nat
  pages_skipped : Nat
  pages_failed : Nat
  links_discovered : Nat
deriving DecidableEq, Repr

/-- The state built by `LakeheadScraper.__init__` with `resume=False`:
all sets, the queue, and the counters empty. -/
def initialState : CrawlerState :=
  { visited_urls := []
    discovered_urls := []
    failed_urls := []
    content_hashes := []
    url_queue := []
    pages_scraped := 0
    pages_skipped := 0
    pages_failed := 0
    links_discovered := 0 }

/-- Python `set.add`: a no-op when the element is already present. -/
def setAdd (l : List String) (u : String) : List String :=
  if u ∈ l then l else l ++ [u]

/-- `self.url_queue.append(url)` (the only way URLs enter the frontier). -/
def pushUrl (st : CrawlerState) (u : String) : CrawlerState :=
  { st with url_queue := st.url_queue ++ [u] }

/-- `self.url_queue.popleft()` guarded by the `while self.url_queue`
emptiness test. -/
def popUrl (st : CrawlerState) : Option (String × CrawlerState) :=
  match st.url_queue with
  | [] => none
  | u :: rest => some (u, { st with url_queue := rest })

/-- `url in self.visited_urls` (the membership test used by the crawler). -/
def isVisited (st : CrawlerState) (u : String) : Bool :=
  decide (u ∈ st.visited_urls)

/-- `url in self.failed_urls`. -/
def isFailed (st : CrawlerState) (u : String) : Bool :=
  decide (u ∈ st.failed_urls)

/-- `url in self.discovered_urls` (the `discovered_urls` set is created in
`__init__` and never written to by any method). -/
def isDiscovered (st : CrawlerState) (u : String) : Bool :=
  decide (u ∈ st.discovered_urls)

/-! ## URL validation (`LakeheadScraper.is_valid_url`, lines 216-251) -/

def exclude_extensions : List String :=
  [".pdf", ".doc", ".docx", ".xls", ".xlsx", ".zip",
   ".rar", ".tar", ".gz", ".mp3", ".mp4", ".avi",
   ".jpg", ".jpeg", ".png", ".gif"]

/-- `LakeheadScraper.is_valid_url`: domain allow-list, extension deny-list,
scheme/prefix deny-list, login-path deny-list, in the order of the source. -/
def is_valid_url (url : String) : Bool :=
  let domain := strToLower (urlNetloc url)
  if ¬ (strEndsWith domain "lakeheadu.ca" || strContainsSub domain "csdc.lakeheadu.ca") then
    false
  else if exclude_extensions.any (fun ext => strEndsWith (strToLower url) ext) then
    false
  else if ["mailto:", "tel:", "javascript:", "#"].any (fun p => strStartsWith url p) then
    false
  else if ["/login", "/logout", "/signin", "/signout"].any
      (fun t => strContainsSub (strToLower url) t) then
    false
  else
    true

/-! ## Pages, quality filter and deduplication -/

/-- The observables of a fetched page that `scrape_page_recursive` reads from
the parsed `BeautifulSoup` document: `raw` is `str(soup)` (the input of the
`hashlib.md5` content hash), `wordCount` is `len(soup.get_text().split())`,
`linkCount` is `len(soup.find_all('a', href=True))`, and `links` lists the
outbound link targets already resolved against the page URL (the
`urljoin(base_url, href)` values iterated by `discover_links_from_page`).
Identical raw markup parses to the identical document, so two pages with the
same raw content are the same `Page`. -/
structure Page where
  raw : String
  wordCount : Nat
  linkCount : Nat
  links : List String
deriving DecidableEq, Repr

/-- `LakeheadScraper.should_scrape_page` (lines 282-302): reject fewer than
50 words, and reject a word-per-link ratio below 3 (the Python float
comparison `word_count / link_count < 3` on naturals is `word_count <
3 * link_count`). -/
def should_scrape_page (p : Page) : Bool :=
  if p.wordCount < 50 then false
  else if p.linkCount > 0 ∧ p.wordCount < 3 * p.linkCount then false
  else true

/-- `LakeheadScraper.is_duplicate_content` (lines 304-317): reports whether
the hash was seen before and records it on first sight. -/
def is_duplicate_content (st : CrawlerState) (h : String) : Bool × CrawlerState :=
  if h ∈ st.content_hashes then (true, st)
  else (false, { st with content_hashes := st.content_hashes ++ [h] })

/-- The crawl environment: `fetch` models `fetch_page` (`session.get` +
parse; `none` is the `requests.RequestException` path returning `None`), and
`md5` models `hashlib.md5(...).hexdigest()` as an opaque function of the raw
markup. -/
structure CrawlEnv where
  fetch : String → Option Page
  md5 : String → String

/-- Externally visible actions of the crawl loop, in order: each
`session.get` attempt (with its outcome), each `time.sleep(self.delay)`, and
each `save_crawler_state()` call. -/
inductive Event where
  | fetchAttempt (url : String) (success : Bool)
  | sleep
  | saveState
deriving DecidableEq, Repr

/-! ## Filename generation (`LakeheadScraper.generate_filename_from_url`,
lines 680-704) -/

/-- Python `\w` for the ASCII inputs at hand: letters, digits, underscore. -/
def isWordChar (c : Char) : Bool := c.isAlphanum || c == '_'

/-- `generate_filename_from_url`: URL path, `re.sub(r'[^\w\-_.]', '_', path)`,
strip underscores, default `index`, truncate to 100 characters. -/
def generate_filename_from_url (url : String) : String :=
  let path := urlPath url
  let filename := strMapChars
    (fun c => if isWordChar c || c == '-' || c == '.' then c else '_') path
  let filename := strStripChar '_' filename
  let filename := if filename = "" then "index" else filename
  if filename.length > 100 then charsStr (filename.data.take 100) else filename

/-! ## Link discovery and enqueueing -/

/-- The `for link in soup.find_all('a', href=True)` loop of
`discover_links_from_page`, written as recursion over the remaining links. -/
def discover_links_aux (st : CrawlerState) (acc : List String) :
    List String → CrawlerState × List String
  | [] => (st, acc)
  | link :: rest =>
      if is_valid_url link ∧ link ∉ st.visited_urls then
        discover_links_aux
          { st with links_discovered := st.links_discovered + 1 }
          (acc ++ [link]) rest
      else discover_links_aux st acc rest

/-- `LakeheadScraper.discover_links_from_page` (lines 617-642): keep the
resolved links that pass `is_valid_url` and are not yet visited, bumping the
`links_discovered` statistic for each kept link. -/
def discover_links_from_page (st : CrawlerState) (p : Page) :
    CrawlerState × List String :=
  discover_links_aux st [] p.links

/-- The enqueue loop of `scrape_page_recursive` (lines 756-758): append each
discovered link that is in neither `visited_urls` nor `failed_urls`. -/
def enqueue_new_links (st : CrawlerState) : List String → CrawlerState
  | [] => st
  | link :: rest =>
      if link ∉ st.visited_urls ∧ link ∉ st.failed_urls then
        enqueue_new_links (pushUrl st link) rest
      else enqueue_new_links st rest

/-! ## Page processing (`LakeheadScraper.scrape_page_recursive`,
lines 706-760) -/

/-- `scrape_page_recursive`: skip if visited; mark visited; fetch (recording
failures in `failed_urls`/`pages_failed`, with no sleep); sleep after a
successful fetch; quality filter; duplicate filter; emit the document (the
returned filename) and enqueue newly discovered links. The third component
is the event trace of the call. -/
def scrape_page_recursive (env : CrawlEnv) (st : CrawlerState) (url : String) :
    CrawlerState × Option String × List Event :=
  if url ∈ st.visited_urls then (st, none, [])
  else
    let st := { st with visited_urls := st.visited_urls ++ [url] }
    match env.fetch url with
    | none =>
        ({ st with failed_urls := setAdd st.failed_urls url,
                   pages_failed := st.pages_failed + 1 },
         none, [Event.fetchAttempt url false])
    | some page =>
        let tr := [Event.fetchAttempt url true, Event.sleep]
        if ¬ should_scrape_page page then
          ({ st with pages_skipped := st.pages_skipped + 1 }, none, tr)
        else
          let dup := is_duplicate_content st (env.md5 page.raw)
          if dup.1 then
            ({ dup.2 with pages_skipped := dup.2.pages_skipped + 1 }, none, tr)
          else
            let st := { dup.2 with pages_scraped := dup.2.pages_scraped + 1 }
            let filename := generate_filename_from_url url
            let discovery := discover_links_from_page st page
            let st := enqueue_new_links discovery.1 discovery.2
            (st, some filename, tr)

/-! ## The crawl loop (`LakeheadScraper.crawl_comprehensive`,
lines 762-814) -/

/-- The Python guard `max_pages and self.statistics['pages_scraped'] >=
max_pages`: `None` and `0` are falsy, so neither imposes a ceiling. -/
def maxPagesReached (mp : Option Int) (scraped : Nat) : Bool :=
  match mp with
  | none => false
  | some m => decide (m ≠ 0) && decide (m ≤ (scraped : Int))

inductive CrawlStatus where
  | drained
  | pageLimit
  | outOfFuel
deriving DecidableEq, Repr

/-- Result of a crawl: final state, the emitted document filenames
(`created_files`), the distinct URLs popped from the frontier in order of
first pop (bookkeeping for the accounting property; not part of the Python
state), the event trace, and how the loop ended. `outOfFuel` marks an
execution cut short by the step bound of the model, not a Python behavior. -/
structure CrawlResult where
  state : CrawlerState
  files : List String
  popped : List String
  trace : List Event
  status : CrawlStatus
deriving DecidableEq, Repr

/-- The `while self.url_queue` loop: emptiness test, page-ceiling test,
`popleft`, `scrape_page_recursive`, collect the created file, and the
periodic `save_crawler_state()` when `pages_scraped % 10 == 0`. `fuel`
bounds the number of iterations of the model. -/
def crawlLoop (env : CrawlEnv) (mp : Option Int) :
    Nat → CrawlerState → List String → List String → List Event → CrawlResult
  | 0, st, files, popped, tr =>
      ⟨st, files, popped, tr,
        if st.url_queue = [] then CrawlStatus.drained else CrawlStatus.outOfFuel⟩
  | fuel + 1, st, files, popped, tr =>
      if st.url_queue = [] then ⟨st, files, popped, tr, CrawlStatus.drained⟩
      else if maxPagesReached mp st.pages_scraped then
        ⟨st, files, popped, tr, CrawlStatus.pageLimit⟩
      else
        match popUrl st with
        | none => ⟨st, files, popped, tr, CrawlStatus.drained⟩
        | some (url, st1) =>
            let step := scrape_page_recursive env st1 url
            let files := match step.2.1 with
              | some f => files ++ [f]
              | none => files
            let tr := tr ++ step.2.2 ++
              (if step.1.pages_scraped % 10 = 0 then [Event.saveState] else [])
            crawlLoop env mp fuel step.1 files (setAdd popped url) tr

/-- The seed loop of `crawl_comprehensive` (lines 775-777): enqueue each
seed URL that passes `is_valid_url`. -/
def seedQueue (st : CrawlerState) : List String → CrawlerState
  | [] => st
  | u :: rest => seedQueue (if is_valid_url u then pushUrl st u else st) rest

/-- `crawl_comprehensive`: push the seed URLs that pass `is_valid_url`, run
the loop, and perform the final `save_crawler_state()`. -/
def crawl_comprehensive (env : CrawlEnv) (st : CrawlerState)
    (seeds : List String) (mp : Option Int) (fuel : Nat) : CrawlResult :=
  let r := crawlLoop env mp fuel (seedQueue st seeds) [] [] []
  { r with trace := r.trace ++ [Event.saveState] }

/-! ## Checkpointing (`save_crawler_state` lines 644-658,
`load_crawler_state` lines 660-678) -/

/-- The snapshot dictionary written by `save_crawler_state`
(`visited_urls`, `failed_urls`, `content_hashes`, `statistics`,
`save_time`). -/
structure CrawlerCheckpoint where
  visited_urls : List String
  failed_urls : List String
  content_hashes : List String
  pages_scraped : Nat
  pages_skipped : Nat
  pages_failed : Nat
  links_discovered : Nat
  save_time : String
deriving DecidableEq, Repr

/-- `save_crawler_state`: snapshot the three sets and the statistics;
`now` stands for `datetime.now().isoformat()`. -/
def save_crawler_state (st : CrawlerState) (now : String) : CrawlerCheckpoint :=
  { visited_urls := st.visited_urls
    failed_urls := st.failed_urls
    content_hashes := st.content_hashes
    pages_scraped := st.pages_scraped
    pages_skipped := st.pages_skipped
    pages_failed := st.pages_failed
    links_discovered := st.links_discovered
    save_time := now }

/-- `load_crawler_state`: restore `visited_urls`, `failed_urls`,
`content_hashes` and `statistics` into the crawler; `discovered_urls` and
`url_queue` are not touched by the Python code. -/
def load_crawler_state (st : CrawlerState) (c : CrawlerCheckpoint) : CrawlerState :=
  { st with
    visited_urls := c.visited_urls
    failed_urls := c.failed_urls
    content_hashes := c.content_hashes
    pages_scraped := c.pages_scraped
    pages_skipped := c.pages_skipped
    pages_failed := c.pages_failed
    links_discovered := c.links_discovered }

/-- A JSON-style rendering of a string list, as `json.dump` writes it. -/
def jsonStringList (l : List String) : String :=
  "[" ++ joinWith ", " (l.map (fun s => "\"" ++ s ++ "\"")) ++ "]"

/-- The serialized checkpoint text produced by `json.dump(state, f)` in
`save_crawler_state` (field order as in the Python dict literal; the
`indent=2` pretty-printing is immaterial to the properties stated about it). -/
def serializeCheckpoint (c : CrawlerCheckpoint) : String :=
  "\x7b\"visited_urls\": " ++ jsonStringList c.visited_urls ++
  ", \"failed_urls\": " ++ jsonStringList c.failed_urls ++
  ", \"content_hashes\": " ++ jsonStringList c.content_hashes ++
  ", \"statistics\": \x7b\"pages_scraped\": " ++ toString c.pages_scraped ++
  ", \"pages_skipped\": " ++ toString c.pages_skipped ++
  ", \"pages_failed\": " ++ toString c.pages_failed ++
  ", \"links_discovered\": " ++ toString c.links_discovered ++
  "\x7d, \"save_time\": \"" ++ c.save_time ++ "\"\x7d"

/-- The checkpoint file contents observable while `save_crawler_state`
writes: `open(state_file, 'w')` truncates the file in place (no temporary
file, no atomic rename), then `json.dump` writes the serialized snapshot
incrementally, so the file passes through every prefix of the new snapshot.
Index 0 is the content before the save (the previous checkpoint); the last
entry is the completed write. -/
def checkpointWriteContents (prev : String) (snapshot : String) : List String :=
  prev :: (List.range (snapshot.length + 1)).map (fun i => charsStr (snapshot.data.take i))

/-! ## Trace predicates (rate limiting) -/

/-- Checker for "the crawler waits the configured delay between any two
fetch attempts": scans the trace keeping track of whether a fetch attempt
has occurred with no `sleep` event after it yet; a further fetch attempt in
that situation is a violation. -/
def delayBetweenFetchesFrom (pending : Bool) : List Event → Bool
  | [] => true
  | Event.sleep :: rest => delayBetweenFetchesFrom false rest
  | Event.fetchAttempt _ _ :: rest =>
      if pending then false else delayBetweenFetchesFrom true rest
  | Event.saveState :: rest => delayBetweenFetchesFrom pending rest

/-- There is a `sleep` between every pair of consecutive fetch attempts. -/
def delayBetweenFetches (tr : List Event) : Bool :=
  delayBetweenFetchesFrom false tr

/-- Checker for "every successful fetch attempt is immediately followed by a
`sleep`": `pending` means the previous event was a successful fetch whose
mandatory sleep has not been seen yet, in which case any event other than
`sleep` is a violation. -/
def sleepAfterSuccessFrom (pending : Bool) : List Event → Bool
  | [] => true
  | Event.sleep :: rest => sleepAfterSuccessFrom false rest
  | Event.fetchAttempt _ ok :: rest =>
      if pending then false else sleepAfterSuccessFrom ok rest
  | Event.saveState :: rest =>
      if pending then false else sleepAfterSuccessFrom false rest

/-- Every successful fetch attempt is immediately followed by a `sleep`. -/
def sleepAfterSuccess (tr : List Event) : Bool :=
  sleepAfterSuccessFrom false tr

/-- The residual scanning state of `sleepAfterSuccessFrom` after a trace. -/
def pendingAfter (pending : Bool) : List Event → Bool
  | [] => pending
  | Event.sleep :: rest => pendingAfter false rest
  | Event.fetchAttempt _ ok :: rest => pendingAfter ok rest
  | Event.saveState :: rest => pendingAfter false rest

/-! ## Concrete fixtures used by the counterexamples and witnesses -/

/-- Tier-1 URL of the priority-ordering property (FAQ page). -/
def urlA : String := "https://www.lakeheadu.ca/faq"

/-- Tier-3 URL of the priority-ordering property (generic news page). -/
def urlB : String := "https://www.lakeheadu.ca/news/story"

/-- Tier-1 URL of the priority-ordering property (admissions page). -/
def urlC : String := "https://www.lakeheadu.ca/future-students/admissions"

/-- The first three frontier pops, in order. -/
def popThree (st : CrawlerState) : Option (String × String × String) :=
  match popUrl st with
  | none => none
  | some (u1, st1) =>
      match popUrl st1 with
      | none => none
      | some (u2, st2) =>
          match popUrl st2 with
          | none => none
          | some (u3, _) => some (u1, u2, u3)

/-- A content-rich page with no outbound links. -/
def richPage : Page :=
  { raw := "<html><body>rich content</body></html>"
    wordCount := 120
    linkCount := 0
    links := [] }

/-- A page too thin to pass `should_scrape_page`. -/
def thinPage : Page :=
  { raw := "<html><body>thin</body></html>"
    wordCount := 3
    linkCount := 0
    links := [] }

/-- Environment in which every fetch fails. -/
def envAllFail : CrawlEnv :=
  { fetch := fun _ => none
    md5 := fun s => s }

/-- Environment in which every fetch returns the same rich, link-free page. -/
def envAllRich : CrawlEnv :=
  { fetch := fun _ => some richPage
    md5 := fun s => s }

/-- Environment for the rate-limiting counterexample: the first seed fails
to fetch, the second succeeds with a thin page. -/
def envFailThenThin : CrawlEnv :=
  { fetch := fun u => if u = urlA then none else some thinPage
    md5 := fun s => s }

/-! ## Checkpoint fixtures -/

/-- The state of the checkpoint round-trip property: `visited = {u1, u2}`,
`failed = {u3}`. -/
def roundTripStart : CrawlerState :=
  { initialState with visited_urls := [urlA, urlB], failed_urls := [urlC] }

/-- A fresh crawler loaded from the saved snapshot of `roundTripStart`. -/
def roundTripped : CrawlerState :=
  load_crawler_state initialState
    (save_crawler_state roundTripStart "2026-01-01T00:00:00")

/-- The previous, still-valid checkpoint text on disk. -/
def prevCheckpointText : String :=
  serializeCheckpoint (save_crawler_state roundTripStart "2026-01-01T00:00:00")

/-- The snapshot written by the next save. -/
def nextCheckpoint : CrawlerCheckpoint :=
  save_crawler_state
    { roundTripStart with
        visited_urls := [urlA, urlB, urlC], pages_scraped := 3 }
    "2026-01-02T00:00:00"

/-! ## Supporting lemmas -/

/-- The page counters summed by the termination-accounting property. -/
def pageTally (st : CrawlerState) : Nat :=
  st.pages_scraped + st.pages_skipped + st.pages_failed

theorem setAdd_of_mem {l : List String} {u : String} (h : u ∈ l) :
    setAdd l u = l := by
  simp [setAdd, h]

theorem setAdd_of_not_mem {l : List String} {u : String} (h : u ∉ l) :
    setAdd l u = l ++ [u] := by
  simp [setAdd, h]

theorem mem_setAdd {l : List String} {u a : String} (h : a ∈ setAdd l u) :
    a ∈ l ∨ a = u := by
  by_cases hu : u ∈ l
  · rw [setAdd_of_mem hu] at h; exact Or.inl h
  · rw [setAdd_of_not_mem hu] at h
    rcases List.mem_append.mp h with h' | h'
    · exact Or.inl h'
    · exact Or.inr (List.mem_singleton.mp h')

theorem discover_links_aux_fields (links : List String) :
    ∀ (st : CrawlerState) (acc : List String),
      (discover_links_aux st acc links).1.visited_urls = st.visited_urls ∧
      (discover_links_aux st acc links).1.failed_urls = st.failed_urls ∧
      (discover_links_aux st acc links).1.content_hashes = st.content_hashes ∧
      (discover_links_aux st acc links).1.url_queue = st.url_queue ∧
      (discover_links_aux st acc links).1.pages_scraped = st.pages_scraped ∧
      (discover_links_aux st acc links).1.pages_skipped = st.pages_skipped ∧
      (discover_links_aux st acc links).1.pages_failed = st.pages_failed := by
  induction links with
  | nil => intro st acc; simp [discover_links_aux]
  | cons l rest ih =>
      intro st acc
      unfold discover_links_aux
      split
      · exact ih _ _
      · exact ih st acc

theorem enqueue_new_links_fields (links : List String) :
    ∀ st : CrawlerState,
      (enqueue_new_links st links).visited_urls = st.visited_urls ∧
      (enqueue_new_links st links).failed_urls = st.failed_urls ∧
      (enqueue_new_links st links).content_hashes = st.content_hashes ∧
      (enqueue_new_links st links).pages_scraped = st.pages_scraped ∧
      (enqueue_new_links st links).pages_skipped = st.pages_skipped ∧
      (enqueue_new_links st links).pages_failed = st.pages_failed := by
  induction links with
  | nil => intro st; simp [enqueue_new_links]
  | cons l rest ih =>
      intro st
      unfold enqueue_new_links
      split
      · exact ih _
      · exact ih st

theorem discover_links_aux_invalid (links : List String)
    (hl : ∀ l ∈ links, is_valid_url l = false) :
    ∀ (st : CrawlerState) (acc : List String),
      discover_links_aux st acc links = (st, acc) := by
  induction links with
  | nil => intro st acc; rfl
  | cons l rest ih =>
      intro st acc
      unfold discover_links_aux
      rw [if_neg]
      · exact ih (fun x hx => hl x (List.mem_cons_of_mem l hx)) st acc
      · intro hcond
        have := hl l (List.mem_cons_self l rest)
        rw [this] at hcond
        exact Bool.false_ne_true hcond.1

theorem scrape_skip_of_visited (env : CrawlEnv) (st : CrawlerState) (u : String)
    (h : u ∈ st.visited_urls) :
    scrape_page_recursive env st u = (st, none, []) := by
  simp [scrape_page_recursive, h]

theorem scrape_fetch_failure (env : CrawlEnv) (st : CrawlerState) (u : String)
    (hv : u ∉ st.visited_urls) (hf : env.fetch u = none) :
    (scrape_page_recursive env st u).1.visited_urls = st.visited_urls ++ [u] ∧
    (scrape_page_recursive env st u).1.failed_urls = setAdd st.failed_urls u ∧
    (scrape_page_recursive env st u).1.content_hashes = st.content_hashes ∧
    (scrape_page_recursive env st u).1.url_queue = st.url_queue ∧
    (scrape_page_recursive env st u).1.pages_scraped = st.pages_scraped ∧
    (scrape_page_recursive env st u).1.pages_skipped = st.pages_skipped ∧
    (scrape_page_recursive env st u).1.pages_failed = st.pages_failed + 1 ∧
    (scrape_page_recursive env st u).2.1 = none ∧
    (scrape_page_recursive env st u).2.2 = [Event.fetchAttempt u false] := by
  simp [scrape_page_recursive, hv, hf]

theorem scrape_skip_quality (env : CrawlEnv) (st : CrawlerState) (u : String)
    (p : Page) (hv : u ∉ st.visited_urls) (hf : env.fetch u = some p)
    (hq : should_scrape_page p = false) :
    (scrape_page_recursive env st u).1.visited_urls = st.visited_urls ++ [u] ∧
    (scrape_page_recursive env st u).1.failed_urls = st.failed_urls ∧
    (scrape_page_recursive env st u).1.content_hashes = st.content_hashes ∧
    (scrape_page_recursive env st u).1.url_queue = st.url_queue ∧
    (scrape_page_recursive env st u).1.links_discovered = st.links_discovered ∧
    (scrape_page_recursive env st u).1.pages_scraped = st.pages_scraped ∧
    (scrape_page_recursive env st u).1.pages_skipped = st.pages_skipped + 1 ∧
    (scrape_page_recursive env st u).1.pages_failed = st.pages_failed ∧
    (scrape_page_recursive env st u).2.1 = none ∧
    (scrape_page_recursive env st u).2.2 = [Event.fetchAttempt u true, Event.sleep] := by
  simp [scrape_page_recursive, hv, hf, hq]

theorem scrape_skip_duplicate (env : CrawlEnv) (st : CrawlerState) (u : String)
    (p : Page) (hv : u ∉ st.visited_urls) (hf : env.fetch u = some p)
    (hq : should_scrape_page p = true) (hh : env.md5 p.raw ∈ st.content_hashes) :
    (scrape_page_recursive env st u).1.visited_urls = st.visited_urls ++ [u] ∧
    (scrape_page_recursive env st u).1.failed_urls = st.failed_urls ∧
    (scrape_page_recursive env st u).1.content_hashes = st.content_hashes ∧
    (scrape_page_recursive env st u).1.url_queue = st.url_queue ∧
    (scrape_page_recursive env st u).1.links_discovered = st.links_discovered ∧
    (scrape_page_recursive env st u).1.pages_scraped = st.pages_scraped ∧
    (scrape_page_recursive env st u).1.pages_skipped = st.pages_skipped + 1 ∧
    (scrape_page_recursive env st u).1.pages_failed = st.pages_failed ∧
    (scrape_page_recursive env st u).2.1 = none ∧
    (scrape_page_recursive env st u).2.2 = [Event.fetchAttempt u true, Event.sleep] := by
  simp [scrape_page_recursive, hv, hf, hq, is_duplicate_content, hh]

theorem scrape_emit (env : CrawlEnv) (st : CrawlerState) (u : String)
    (p : Page) (hv : u ∉ st.visited_urls) (hf : env.fetch u = some p)
    (hq : should_scrape_page p = true) (hh : env.md5 p.raw ∉ st.content_hashes) :
    (scrape_page_recursive env st u).1.visited_urls = st.visited_urls ++ [u] ∧
    (scrape_page_recursive env st u).1.failed_urls = st.failed_urls ∧
    (scrape_page_recursive env st u).1.content_hashes =
      st.content_hashes ++ [env.md5 p.raw] ∧
    (scrape_page_recursive env st u).1.pages_scraped = st.pages_scraped + 1 ∧
    (scrape_page_recursive env st u).1.pages_skipped = st.pages_skipped ∧
    (scrape_page_recursive env st u).1.pages_failed = st.pages_failed ∧
    (scrape_page_recursive env st u).2.1 = some (generate_filename_from_url u) ∧
    (scrape_page_recursive env st u).2.2 = [Event.fetchAttempt u true, Event.sleep] := by
  have hd := discover_links_aux_fields p.links
  have he := enqueue_new_links_fields
  simp only [scrape_page_recursive, hv, if_neg, hf, hq, is_duplicate_content, hh,
    if_false, ite_false, ite_true, not_true, not_false_iff, if_true,
    discover_links_from_page]
  rw [if_neg (show ¬ (false = true) by decide)]
  refine ⟨?_, ?_, ?_, ?_, ?_, ?_, rfl, rfl⟩
  · rw [(he _ _).1, (hd _ _).1]
  · rw [(he _ _).2.1, (hd _ _).2.1]
  · rw [(he _ _).2.2.1, (hd _ _).2.2.1]
  · rw [(he _ _).2.2.2.1, (hd _ _).2.2.2.2.1]
  · rw [(he _ _).2.2.2.2.1, (hd _ _).2.2.2.2.2.1]
  · rw [(he _ _).2.2.2.2.2, (hd _ _).2.2.2.2.2.2]

theorem scrape_queue_no_valid_links (env : CrawlEnv) (st : CrawlerState) (u : String)
    (hl : ∀ p, env.fetch u = some p → ∀ l ∈ p.links, is_valid_url l = false) :
    (scrape_page_recursive env st u).1.url_queue = st.url_queue := by
  by_cases hv : u ∈ st.visited_urls
  · rw [scrape_skip_of_visited env st u hv]
  cases hf : env.fetch u with
  | none => exact (scrape_fetch_failure env st u hv hf).2.2.2.1
  | some p =>
      cases hq : should_scrape_page p with
      | false => exact (scrape_skip_quality env st u p hv hf hq).2.2.2.1
      | true =>
          by_cases hh : env.md5 p.raw ∈ st.content_hashes
          · exact (scrape_skip_duplicate env st u p hv hf hq hh).2.2.2.1
          · simp only [scrape_page_recursive, hv, hf, hq, is_duplicate_content, hh,
              if_false, ite_false, ite_true, not_true, not_false_iff, if_true,
              discover_links_from_page]
            rw [if_neg (show ¬ (false = true) by decide)]
            rw [discover_links_aux_invalid p.links (hl p hf) _ []]
            rfl

theorem scrape_failed_subset (env : CrawlEnv) (st : CrawlerState) (u : String)
    (hsub : ∀ a ∈ st.failed_urls, a ∈ st.visited_urls) :
    ∀ a ∈ (scrape_page_recursive env st u).1.failed_urls,
      a ∈ (scrape_page_recursive env st u).1.visited_urls := by
  by_cases hv : u ∈ st.visited_urls
  · rw [scrape_skip_of_visited env st u hv]; exact hsub
  cases hf : env.fetch u with
  | none =>
      have h := scrape_fetch_failure env st u hv hf
      rw [h.1, h.2.1]
      intro a ha
      rcases mem_setAdd ha with h' | h'
      · exact List.mem_append_left _ (hsub a h')
      · exact List.mem_append_right _ (h' ▸ List.mem_singleton_self a)
  | some p =>
      cases hq : should_scrape_page p with
      | false =>
          have h := scrape_skip_quality env st u p hv hf hq
          rw [h.1, h.2.1]
          exact fun a ha => List.mem_append_left _ (hsub a ha)
      | true =>
          by_cases hh : env.md5 p.raw ∈ st.content_hashes
          · have h := scrape_skip_duplicate env st u p hv hf hq hh
            rw [h.1, h.2.1]
            exact fun a ha => List.mem_append_left _ (hsub a ha)
          · have h := scrape_emit env st u p hv hf hq hh
            rw [h.1, h.2.1]
            exact fun a ha => List.mem_append_left _ (hsub a ha)

theorem scrape_fresh_tally (env : CrawlEnv) (st : CrawlerState) (u : String)
    (hv : u ∉ st.visited_urls) :
    (scrape_page_recursive env st u).1.visited_urls = st.visited_urls ++ [u] ∧
    pageTally (scrape_page_recursive env st u).1 = pageTally st + 1 := by
  cases hf : env.fetch u with
  | none =>
      have h := scrape_fetch_failure env st u hv hf
      refine ⟨h.1, ?_⟩
      rw [pageTally, pageTally, h.2.2.2.2.1, h.2.2.2.2.2.1, h.2.2.2.2.2.2.1]
      omega
  | some p =>
      cases hq : should_scrape_page p with
      | false =>
          have h := scrape_skip_quality env st u p hv hf hq
          refine ⟨h.1, ?_⟩
          rw [pageTally, pageTally, h.2.2.2.2.2.1, h.2.2.2.2.2.2.1, h.2.2.2.2.2.2.2.1]
          omega
      | true =>
          by_cases hh : env.md5 p.raw ∈ st.content_hashes
          · have h := scrape_skip_duplicate env st u p hv hf hq hh
            refine ⟨h.1, ?_⟩
            rw [pageTally, pageTally, h.2.2.2.2.2.1, h.2.2.2.2.2.2.1, h.2.2.2.2.2.2.2.1]
            omega
          · have h := scrape_emit env st u p hv hf hq hh
            refine ⟨h.1, ?_⟩
            rw [pageTally, pageTally, h.2.2.2.1, h.2.2.2.2.1, h.2.2.2.2.2.1]
            omega

theorem seedQueue_fields (seeds : List String) :
    ∀ st : CrawlerState,
      (seedQueue st seeds).visited_urls = st.visited_urls ∧
      (seedQueue st seeds).failed_urls = st.failed_urls ∧
      (seedQueue st seeds).content_hashes = st.content_hashes ∧
      (seedQueue st seeds).pages_scraped = st.pages_scraped ∧
      (seedQueue st seeds).pages_skipped = st.pages_skipped ∧
      (seedQueue st seeds).pages_failed = st.pages_failed ∧
      (seedQueue st seeds).url_queue =
        st.url_queue ++ seeds.filter (fun u => is_valid_url u) := by
  induction seeds with
  | nil => intro st; simp [seedQueue]
  | cons u rest ih =>
      intro st
      cases hu : is_valid_url u with
      | true =>
          have h := ih (pushUrl st u)
          simp only [seedQueue, hu, ite_true]
          refine ⟨h.1, h.2.1, h.2.2.1, h.2.2.2.1, h.2.2.2.2.1, h.2.2.2.2.2.1, ?_⟩
          rw [h.2.2.2.2.2.2]
          simp [pushUrl, List.filter_cons, hu]
      | false =>
          have h := ih st
          simp only [seedQueue, hu]
          rw [if_neg (show ¬ (false = true) by decide)]
          refine ⟨h.1, h.2.1, h.2.2.1, h.2.2.2.1, h.2.2.2.2.1, h.2.2.2.2.2.1, ?_⟩
          rw [h.2.2.2.2.2.2]
          congr 1
          simp [List.filter_cons, hu]

theorem crawlLoop_failed_subset (env : CrawlEnv) (mp : Option Int) :
    ∀ (fuel : Nat) (st : CrawlerState) (files popped : List String) (tr : List Event),
      (∀ a ∈ st.failed_urls, a ∈ st.visited_urls) →
      ∀ a ∈ (crawlLoop env mp fuel st files popped tr).state.failed_urls,
        a ∈ (crawlLoop env mp fuel st files popped tr).state.visited_urls := by
  intro fuel
  induction fuel with
  | zero => intro st files popped tr hsub; simpa [crawlLoop] using hsub
  | succ n ih =>
      intro st files popped tr hsub
      cases hq : st.url_queue with
      | nil => simpa [crawlLoop, hq] using hsub
      | cons u rest =>
          by_cases hmax : maxPagesReached mp st.pages_scraped = true
          · simpa [crawlLoop, hq, hmax] using hsub
          · have h1 : ∀ a ∈ ({ st with url_queue := rest } : CrawlerState).failed_urls,
                a ∈ ({ st with url_queue := rest } : CrawlerState).visited_urls := hsub
            simp only [crawlLoop, popUrl, hq]
            rw [if_neg (List.cons_ne_nil u rest), if_neg hmax]
            exact ih _ _ _ _ (scrape_failed_subset env _ u h1)

theorem crawlLoop_drains (env : CrawlEnv)
    (hlinks : ∀ u p, env.fetch u = some p → ∀ l ∈ p.links, is_valid_url l = false) :
    ∀ (fuel : Nat) (st : CrawlerState) (files popped : List String) (tr : List Event),
      popped = st.visited_urls →
      pageTally st = popped.length →
      st.url_queue.length ≤ fuel →
      (crawlLoop env none fuel st files popped tr).status = CrawlStatus.drained ∧
      (crawlLoop env none fuel st files popped tr).state.url_queue = [] ∧
      pageTally (crawlLoop env none fuel st files popped tr).state =
        (crawlLoop env none fuel st files popped tr).popped.length := by
  intro fuel
  induction fuel with
  | zero =>
      intro st files popped tr hpv htally hlen
      have hq : st.url_queue = [] := List.length_eq_zero.mp (Nat.le_zero.mp hlen)
      simp [crawlLoop, hq, htally]
  | succ n ih =>
      intro st files popped tr hpv htally hlen
      cases hq : st.url_queue with
      | nil => simp [crawlLoop, hq, htally]
      | cons u rest =>
          have hmax : ¬ (maxPagesReached none st.pages_scraped = true) := by
            simp [maxPagesReached]
          have hlen' : rest.length ≤ n := by
            rw [hq] at hlen
            exact Nat.succ_le_succ_iff.mp hlen
          by_cases hu : u ∈ st.visited_urls
          · have hskip := scrape_skip_of_visited env { st with url_queue := rest } u hu
            have hpopped : setAdd popped u = popped := setAdd_of_mem (by rw [hpv]; exact hu)
            simp only [crawlLoop, popUrl, hq]
            rw [if_neg (List.cons_ne_nil u rest), if_neg hmax]
            rw [hskip, hpopped]
            exact ih { st with url_queue := rest } _ popped _ hpv htally hlen'
          · have hfresh := scrape_fresh_tally env { st with url_queue := rest } u hu
            have hqueue := scrape_queue_no_valid_links env { st with url_queue := rest } u
              (fun p hp => hlinks u p hp)
            have hpopped : setAdd popped u = popped ++ [u] :=
              setAdd_of_not_mem (by rw [hpv]; exact hu)
            simp only [crawlLoop, popUrl, hq]
            rw [if_neg (List.cons_ne_nil u rest), if_neg hmax]
            rw [hpopped]
            apply ih
            · rw [hfresh.1, hpv]
            · rw [hfresh.2]
              have htally' : pageTally { st with url_queue := rest } = popped.length := htally
              rw [htally']
              simp
            · rw [hqueue]
              exact hlen'

theorem sleepAfterSuccessFrom_append (a : List Event) :
    ∀ (b : List Event) (p : Bool),
      sleepAfterSuccessFrom p (a ++ b) =
        (sleepAfterSuccessFrom p a && sleepAfterSuccessFrom (pendingAfter p a) b) := by
  induction a with
  | nil => intro b p; simp [sleepAfterSuccessFrom, pendingAfter]
  | cons e a' ih =>
      intro b p
      cases e with
      | sleep => simp [sleepAfterSuccessFrom, pendingAfter, ih]
      | saveState =>
          cases p with
          | true => simp [sleepAfterSuccessFrom, pendingAfter]
          | false => simp [sleepAfterSuccessFrom, pendingAfter, ih]
      | fetchAttempt u ok =>
          cases p with
          | true => simp [sleepAfterSuccessFrom, pendingAfter]
          | false => simp [sleepAfterSuccessFrom, pendingAfter, ih]

theorem pendingAfter_append (a : List Event) :
    ∀ (b : List Event) (p : Bool),
      pendingAfter p (a ++ b) = pendingAfter (pendingAfter p a) b := by
  induction a with
  | nil => intro b p; simp [pendingAfter]
  | cons e a' ih =>
      intro b p
      cases e <;> simp [pendingAfter, ih]

theorem scrape_trace_ok (env : CrawlEnv) (st : CrawlerState) (u : String) :
    sleepAfterSuccessFrom false (scrape_page_recursive env st u).2.2 = true ∧
    pendingAfter false (scrape_page_recursive env st u).2.2 = false := by
  by_cases hv : u ∈ st.visited_urls
  · rw [scrape_skip_of_visited env st u hv]; exact ⟨rfl, rfl⟩
  cases hf : env.fetch u with
  | none =>
      rw [(scrape_fetch_failure env st u hv hf).2.2.2.2.2.2.2.2]
      exact ⟨rfl, rfl⟩
  | some p =>
      cases hq : should_scrape_page p with
      | false =>
          rw [(scrape_skip_quality env st u p hv hf hq).2.2.2.2.2.2.2.2.2]
          exact ⟨rfl, rfl⟩
      | true =>
          by_cases hh : env.md5 p.raw ∈ st.content_hashes
          · rw [(scrape_skip_duplicate env st u p hv hf hq hh).2.2.2.2.2.2.2.2.2]
            exact ⟨rfl, rfl⟩
          · rw [(scrape_emit env st u p hv hf hq hh).2.2.2.2.2.2.2]
            exact ⟨rfl, rfl⟩

theorem trace_ok_extend {tr s2 cs : List Event}
    (h1 : sleepAfterSuccessFrom false tr = true)
    (h2 : pendingAfter false tr = false)
    (h3 : sleepAfterSuccessFrom false s2 = true)
    (h4 : pendingAfter false s2 = false)
    (h5 : sleepAfterSuccessFrom false cs = true)
    (h6 : pendingAfter false cs = false) :
    sleepAfterSuccessFrom false (tr ++ s2 ++ cs) = true ∧
    pendingAfter false (tr ++ s2 ++ cs) = false := by
  constructor
  · rw [sleepAfterSuccessFrom_append, sleepAfterSuccessFrom_append,
      pendingAfter_append, h1, h2, h3, h4, h5]
    rfl
  · rw [pendingAfter_append, pendingAfter_append, h2, h4, h6]

theorem crawlLoop_trace_ok (env : CrawlEnv) (mp : Option Int) :
    ∀ (fuel : Nat) (st : CrawlerState) (files popped : List String) (tr : List Event),
      sleepAfterSuccessFrom false tr = true →
      pendingAfter false tr = false →
      sleepAfterSuccessFrom false (crawlLoop env mp fuel st files popped tr).trace = true ∧
      pendingAfter false (crawlLoop env mp fuel st files popped tr).trace = false := by
  intro fuel
  induction fuel with
  | zero => intro st files popped tr h1 h2; exact ⟨h1, h2⟩
  | succ n ih =>
      intro st files popped tr h1 h2
      cases hq : st.url_queue with
      | nil => simpa [crawlLoop, hq] using ⟨h1, h2⟩
      | cons u rest =>
          by_cases hmax : maxPagesReached mp st.pages_scraped = true
          · simpa [crawlLoop, hq, hmax] using ⟨h1, h2⟩
          · have hstep := scrape_trace_ok env { st with url_queue := rest } u
            have hcs : sleepAfterSuccessFrom false
                  (if (scrape_page_recursive env { st with url_queue := rest } u).1.pages_scraped % 10 = 0
                   then [Event.saveState] else []) = true ∧
                pendingAfter false
                  (if (scrape_page_recursive env { st with url_queue := rest } u).1.pages_scraped % 10 = 0
                   then [Event.saveState] else []) = false := by
              by_cases hc :
                  (scrape_page_recursive env { st with url_queue := rest } u).1.pages_scraped % 10 = 0 <;>
                simp [hc, sleepAfterSuccessFrom, pendingAfter]
            have hext := trace_ok_extend h1 h2 hstep.1 hstep.2 hcs.1 hcs.2
            simp only [crawlLoop, popUrl, hq]
            rw [if_neg (List.cons_ne_nil u rest), if_neg hmax]
            exact ih _ _ _ _ hext.1 hext.2

theorem crawlLoop_max_pages_zero (env : CrawlEnv) :
    ∀ (fuel : Nat) (st : CrawlerState) (files popped : List String) (tr : List Event),
      crawlLoop env (some 0) fuel st files popped tr =
        crawlLoop env none fuel st files popped tr := by
  intro fuel
  induction fuel with
  | zero => intro st files popped tr; rfl
  | succ n ih =>
      intro st files popped tr
      cases hq : st.url_queue with
      | nil => simp [crawlLoop, hq]
      | cons u rest =>
          have hmax0 : ¬ (maxPagesReached (some 0) st.pages_scraped = true) := by
            simp [maxPagesReached]
          have hmaxn : ¬ (maxPagesReached none st.pages_scraped = true) := by
            simp [maxPagesReached]
          simp only [crawlLoop, popUrl, hq]
          rw [if_neg (List.cons_ne_nil u rest), if_neg hmax0, if_neg hmaxn]
          exact ih _ _ _ _

/-! ## Claim theorems -/

/-- **C1, counterexample.** The claim states that pushing URLs B (tier 3),
A (tier 1), C (tier 1) in the order B, A, C and then popping yields A, C, B
(smallest priority tier first). On the code the frontier is a plain FIFO
deque with no priority tiers at all, so the three pops return B, A, C: the
first popped URL is B, not A. -/
theorem frontier_pop_ignores_priority_cx :
    popThree (pushUrl (pushUrl (pushUrl initialState urlB) urlA) urlC) =
      some (urlB, urlA, urlC) ∧
    some (urlB, urlA, urlC) ≠ some (urlA, urlC, urlB) := by decide

/-- **C1, amended.** For URLs B, A, C pushed into the frontier in the order
B, A, C, popping yields B, then A, then C: the frontier (`url_queue`, a
`deque` used with `append`/`popleft`) releases URLs in pure insertion
(discovery) order; no priority tier is ever computed or consulted. -/
theorem frontier_pop_fifo_order :
    popThree (pushUrl (pushUrl (pushUrl initialState urlB) urlA) urlC) =
      some (urlB, urlA, urlC) := by decide

/-- **C2, counterexample.** For the page
`<p><strong>1. What is X?</strong></p><p>X is Y.</p>
<p><strong>2. What is Z?</strong></p><p>Z is W.</p>`, the extractor does not
yield the two claimed pairs. -/
theorem faq_numbered_emphasis_cx :
    extract_faq_qa_pairs claimFaqPage ≠
      [⟨"What is X?", "X is Y."⟩, ⟨"What is Z?", "Z is W."⟩] := by decide

/-- **C2, amended.** For that page the extractor yields no FAQ pairs at
all. No numbered-emphasis strategy exists in the code; the heading-strategy
treats each `strong` whose text contains `?` as a question start but
collects the answer from the following siblings of the `strong` element
itself, and a `strong` wrapped alone inside a `<p>` has no siblings, so no
answer is found and no pair is produced (and no number prefix would have
been stripped from the question text). -/
theorem faq_extraction_yields_nothing :
    extract_faq_qa_pairs claimFaqPage = [] := by decide

/-- **C3, counterexample.** Pushing the same URL into the frontier twice
through the enqueue guard of `scrape_page_recursive` (lines 756-758) is not
a no-op: the code keeps no `discovered` guard (the `discovered_urls` set is
never populated), so the queue ends up with two entries for the URL. -/
theorem frontier_push_not_idempotent_cx :
    (enqueue_new_links (enqueue_new_links initialState [urlA]) [urlA]).url_queue =
      [urlA, urlA] ∧ ¬ ([urlA, urlA].length ≤ 1) := by decide

/-- **C3, amended.** Re-discovery is not deduplicated at push time — the
frontier can hold duplicate entries for a URL — but each URL is processed at
most once: a URL already in `visited_urls` is skipped unchanged when it is
popped and handed to `scrape_page_recursive`. -/
theorem visited_url_skipped_on_pop (env : CrawlEnv) (st : CrawlerState)
    (u : String) (h : u ∈ st.visited_urls) :
    scrape_page_recursive env st u = (st, none, []) :=
  scrape_skip_of_visited env st u h

/-- Witness for `visited_url_skipped_on_pop` at a concrete state. -/
theorem visited_url_skipped_on_pop_witness :
    urlA ∈ ({ initialState with visited_urls := [urlA] } : CrawlerState).visited_urls ∧
    scrape_page_recursive envAllRich { initialState with visited_urls := [urlA] } urlA =
      ({ initialState with visited_urls := [urlA] }, none, []) :=
  ⟨by decide,
   visited_url_skipped_on_pop envAllRich { initialState with visited_urls := [urlA] }
     urlA (by decide)⟩

/-- **C4, counterexample.** A URL whose fetch fails is recorded in both
`visited_urls` and `failed_urls` (lines 719 and 724), so `visited` and
`failed` are not mutually exclusive. -/
theorem failed_also_visited_cx :
    urlA ∈ (scrape_page_recursive envAllFail initialState urlA).1.visited_urls ∧
    urlA ∈ (scrape_page_recursive envAllFail initialState urlA).1.failed_urls := by
  decide

/-- **C4, amended.** The membership sets are not mutually exclusive:
`failed_urls` is contained in `visited_urls` throughout every crawl started
from a fresh state (every fetch-failed URL was marked visited immediately
before its fetch), and `discovered_urls` is never populated at all. -/
theorem failed_subset_of_visited (env : CrawlEnv) (seeds : List String)
    (mp : Option Int) (fuel : Nat) :
    ∀ a ∈ (crawl_comprehensive env initialState seeds mp fuel).state.failed_urls,
      a ∈ (crawl_comprehensive env initialState seeds mp fuel).state.visited_urls := by
  have hs := seedQueue_fields seeds initialState
  have hsub : ∀ a ∈ (seedQueue initialState seeds).failed_urls,
      a ∈ (seedQueue initialState seeds).visited_urls := by
    rw [hs.2.1]
    intro a ha
    exact absurd ha (List.not_mem_nil a)
  exact crawlLoop_failed_subset env mp fuel (seedQueue initialState seeds) [] [] [] hsub

/-- Witness for `failed_subset_of_visited` on a crawl whose only seed fails
to fetch. -/
theorem failed_subset_of_visited_witness :
    urlA ∈ (crawl_comprehensive envAllFail initialState [urlA] none 1).state.visited_urls :=
  failed_subset_of_visited envAllFail [urlA] none 1 urlA (by decide)

/-- **C5.** Duplicate pages are dead ends: if two distinct unvisited URLs
fetch pages with identical raw markup (hence equal content hash), the page
whose quality check passes is emitted once, and processing the second URL
emits nothing, increments `pages_skipped`, leaves `pages_scraped` unchanged,
and discovers and enqueues none of the duplicate page's outbound links. -/
theorem duplicate_page_dead_end (env : CrawlEnv) (st : CrawlerState)
    (u1 u2 : String) (p1 p2 : Page)
    (hne : u1 ≠ u2)
    (h1 : env.fetch u1 = some p1) (h2 : env.fetch u2 = some p2)
    (hraw : p1.raw = p2.raw)
    (hv1 : u1 ∉ st.visited_urls) (hv2 : u2 ∉ st.visited_urls)
    (hq1 : should_scrape_page p1 = true)
    (hh : env.md5 p1.raw ∉ st.content_hashes) :
    (scrape_page_recursive env st u1).2.1 = some (generate_filename_from_url u1) ∧
    (scrape_page_recursive env (scrape_page_recursive env st u1).1 u2).2.1 = none ∧
    (scrape_page_recursive env (scrape_page_recursive env st u1).1 u2).1.pages_skipped =
      (scrape_page_recursive env st u1).1.pages_skipped + 1 ∧
    (scrape_page_recursive env (scrape_page_recursive env st u1).1 u2).1.pages_scraped =
      (scrape_page_recursive env st u1).1.pages_scraped ∧
    (scrape_page_recursive env (scrape_page_recursive env st u1).1 u2).1.url_queue =
      (scrape_page_recursive env st u1).1.url_queue ∧
    (scrape_page_recursive env (scrape_page_recursive env st u1).1 u2).1.links_discovered =
      (scrape_page_recursive env st u1).1.links_discovered := by
  have hemit := scrape_emit env st u1 p1 hv1 h1 hq1 hh
  have hst1v : u2 ∉ (scrape_page_recursive env st u1).1.visited_urls := by
    rw [hemit.1]
    intro hmem
    rcases List.mem_append.mp hmem with h | h
    · exact hv2 h
    · exact hne (List.mem_singleton.mp h).symm
  cases hq2 : should_scrape_page p2 with
  | false =>
      have hskip := scrape_skip_quality env _ u2 p2 hst1v h2 hq2
      exact ⟨hemit.2.2.2.2.2.2.1, hskip.2.2.2.2.2.2.2.2.1, hskip.2.2.2.2.2.2.1,
        hskip.2.2.2.2.2.1, hskip.2.2.2.1, hskip.2.2.2.2.1⟩
  | true =>
      have hmem : env.md5 p2.raw ∈ (scrape_page_recursive env st u1).1.content_hashes := by
        rw [hemit.2.2.1, ← hraw]
        exact List.mem_append_right _ (List.mem_singleton_self _)
      have hdup := scrape_skip_duplicate env _ u2 p2 hst1v h2 hq2 hmem
      exact ⟨hemit.2.2.2.2.2.2.1, hdup.2.2.2.2.2.2.2.2.1, hdup.2.2.2.2.2.2.1,
        hdup.2.2.2.2.2.1, hdup.2.2.2.1, hdup.2.2.2.2.1⟩

/-- Witness for `duplicate_page_dead_end`: two distinct URLs both serving
the identical rich page. -/
theorem duplicate_page_dead_end_witness :
    (scrape_page_recursive envAllRich initialState urlA).2.1 =
      some (generate_filename_from_url urlA) ∧
    (scrape_page_recursive envAllRich
        (scrape_page_recursive envAllRich initialState urlA).1 urlB).2.1 = none ∧
    (scrape_page_recursive envAllRich
        (scrape_page_recursive envAllRich initialState urlA).1 urlB).1.pages_skipped =
      (scrape_page_recursive envAllRich initialState urlA).1.pages_skipped + 1 ∧
    (scrape_page_recursive envAllRich
        (scrape_page_recursive envAllRich initialState urlA).1 urlB).1.pages_scraped =
      (scrape_page_recursive envAllRich initialState urlA).1.pages_scraped ∧
    (scrape_page_recursive envAllRich
        (scrape_page_recursive envAllRich initialState urlA).1 urlB).1.url_queue =
      (scrape_page_recursive envAllRich initialState urlA).1.url_queue ∧
    (scrape_page_recursive envAllRich
        (scrape_page_recursive envAllRich initialState urlA).1 urlB).1.links_discovered =
      (scrape_page_recursive envAllRich initialState urlA).1.links_discovered :=
  duplicate_page_dead_end envAllRich initialState urlA urlB richPage richPage
    (by decide) rfl rfl rfl (by decide) (by decide) (by decide) (by decide)

/-- **C6, counterexample.** The crawler does not wait after a failed fetch:
crawling seeds A, B where A fails to fetch and B succeeds produces the
trace fetch(A), save, fetch(B), sleep, ... — the fetch of B begins with no
sleep after the failed fetch of A. -/
theorem no_delay_after_failed_fetch_cx :
    delayBetweenFetches
      (crawl_comprehensive envFailThenThin initialState [urlA, urlB] none 2).trace =
      false := by decide

/-- **C6, amended.** The delay is observed only after successful fetches:
in every crawl trace, every successful fetch attempt is immediately followed
by the `time.sleep(self.delay)` event; after a failed fetch the crawler
proceeds to the next URL without sleeping. -/
theorem delay_after_successful_fetch (env : CrawlEnv) (st : CrawlerState)
    (seeds : List String) (mp : Option Int) (fuel : Nat) :
    sleepAfterSuccess (crawl_comprehensive env st seeds mp fuel).trace = true := by
  have h := crawlLoop_trace_ok env mp fuel (seedQueue st seeds) [] [] [] rfl rfl
  show sleepAfterSuccessFrom false
      ((crawlLoop env mp fuel (seedQueue st seeds) [] [] []).trace ++
        [Event.saveState]) = true
  rw [sleepAfterSuccessFrom_append, h.1, h.2]
  rfl

/-- **C7, counterexample.** Loading the saved state `visited = {u1, u2}`,
`failed = {u3}` into a fresh crawler does not make `isDiscovered` true for
the three URLs: `discovered_urls` is neither saved nor loaded (nor ever
populated), so it stays empty. -/
theorem checkpoint_discovered_not_restored_cx :
    ¬ (isDiscovered roundTripped urlA = true ∧
       isDiscovered roundTripped urlB = true ∧
       isDiscovered roundTripped urlC = true) := by decide

/-- **C7, amended.** The checkpoint round-trip reproduces the `visited`
and `failed` memberships — `isVisited(u1)`, `isVisited(u2)`, `isFailed(u3)`
are all true after loading into a fresh crawler — but `isDiscovered` is
false for all three URLs, because the discovered set is not part of the
checkpoint and is never populated. -/
theorem checkpoint_roundtrip_visited_failed :
    isVisited roundTripped urlA = true ∧
    isVisited roundTripped urlB = true ∧
    isFailed roundTripped urlC = true ∧
    isDiscovered roundTripped urlA = false ∧
    isDiscovered roundTripped urlB = false ∧
    isDiscovered roundTripped urlC = false := by decide

set_option maxRecDepth 8192 in
/-- **C8, counterexample.** The checkpoint write is not an atomic replace:
`save_crawler_state` opens the existing checkpoint file in mode `'w'`,
which truncates it before `json.dump` writes the new snapshot, so the empty
file — which is neither the previous checkpoint nor the new snapshot — is
an observable intermediate state; a failure between truncation and the end
of the write corrupts the previous, still-valid checkpoint. -/
theorem checkpoint_write_not_atomic_cx :
    "" ∈ checkpointWriteContents prevCheckpointText
        (serializeCheckpoint nextCheckpoint) ∧
    "" ≠ prevCheckpointText ∧
    "" ≠ serializeCheckpoint nextCheckpoint := by
  refine ⟨List.mem_cons_of_mem _
    (List.mem_map.mpr ⟨0, List.mem_range.mpr (Nat.succ_pos _), rfl⟩), ?_, ?_⟩
  · decide
  · decide

/-- **C8, amended.** A save that runs to completion does fully replace the
snapshot — the completed snapshot text is the final observable file content,
and every mid-write content is a prefix of the new snapshot — but the write
happens in place after truncation, so the empty file is observable mid-save
and an interrupted save loses the previous checkpoint (no atomic replace). -/
theorem checkpoint_write_in_place (prev : String) (c : CrawlerCheckpoint) :
    serializeCheckpoint c ∈ checkpointWriteContents prev (serializeCheckpoint c) ∧
    "" ∈ checkpointWriteContents prev (serializeCheckpoint c) ∧
    ∀ x ∈ checkpointWriteContents prev (serializeCheckpoint c),
      x = prev ∨ ∃ i, x = charsStr ((serializeCheckpoint c).data.take i) := by
  refine ⟨?_, ?_, ?_⟩
  · apply List.mem_cons_of_mem
    apply List.mem_map.mpr
    refine ⟨(serializeCheckpoint c).length, List.mem_range.mpr (Nat.lt_succ_self _), ?_⟩
    show charsStr ((serializeCheckpoint c).data.take (serializeCheckpoint c).length) =
      serializeCheckpoint c
    have hlen : (serializeCheckpoint c).length = (serializeCheckpoint c).data.length := rfl
    rw [hlen, List.take_length]
    rfl
  · exact List.mem_cons_of_mem _
      (List.mem_map.mpr ⟨0, List.mem_range.mpr (Nat.succ_pos _), rfl⟩)
  · intro x hx
    rcases List.mem_cons.mp hx with h | h
    · exact Or.inl h
    · rcases List.mem_map.mp h with ⟨i, _, hfi⟩
      exact Or.inr ⟨i, hfi.symm⟩

set_option maxRecDepth 8192 in
/-- Witness for `checkpoint_write_in_place`: the truncated-empty state is
one of the observable contents and is classified by the theorem. -/
theorem checkpoint_write_in_place_witness :
    "" = prevCheckpointText ∨
    ∃ i, "" = charsStr ((serializeCheckpoint nextCheckpoint).data.take i) :=
  (checkpoint_write_in_place prevCheckpointText nextCheckpoint).2.2 ""
    (checkpoint_write_in_place prevCheckpointText nextCheckpoint).2.1

/-- **C9.** Termination and accounting: a crawl from a fresh state whose
fetched pages yield no in-scope links drains its frontier (one loop
iteration per enqueued seed suffices) and ends with
`pages_scraped + pages_skipped + pages_failed` equal to the number of
distinct URLs ever popped from the frontier. -/
theorem crawl_terminates_and_accounts (env : CrawlEnv) (seeds : List String) (fuel : Nat)
    (hlinks : ∀ u p, env.fetch u = some p → ∀ l ∈ p.links, is_valid_url l = false)
    (hfuel : (seeds.filter (fun u => is_valid_url u)).length ≤ fuel) :
    (crawl_comprehensive env initialState seeds none fuel).status = CrawlStatus.drained ∧
    (crawl_comprehensive env initialState seeds none fuel).state.url_queue = [] ∧
    (crawl_comprehensive env initialState seeds none fuel).state.pages_scraped +
        (crawl_comprehensive env initialState seeds none fuel).state.pages_skipped +
        (crawl_comprehensive env initialState seeds none fuel).state.pages_failed =
      (crawl_comprehensive env initialState seeds none fuel).popped.length := by
  have hs := seedQueue_fields seeds initialState
  have hpv : ([] : List String) = (seedQueue initialState seeds).visited_urls := by
    rw [hs.1]
    rfl
  have htally : pageTally (seedQueue initialState seeds) = ([] : List String).length := by
    rw [pageTally, hs.2.2.2.1, hs.2.2.2.2.1, hs.2.2.2.2.2.1]
    rfl
  have hlen : (seedQueue initialState seeds).url_queue.length ≤ fuel := by
    rw [hs.2.2.2.2.2.2]
    simpa [initialState] using hfuel
  exact crawlLoop_drains env hlinks fuel (seedQueue initialState seeds) [] [] []
    hpv htally hlen

/-- Witness for `crawl_terminates_and_accounts`: one seed, fetched as a
rich page with no outbound links. -/
theorem crawl_terminates_and_accounts_witness :
    (crawl_comprehensive envAllRich initialState [urlA] none 1).status =
      CrawlStatus.drained ∧
    (crawl_comprehensive envAllRich initialState [urlA] none 1).state.url_queue = [] ∧
    (crawl_comprehensive envAllRich initialState [urlA] none 1).state.pages_scraped +
        (crawl_comprehensive envAllRich initialState [urlA] none 1).state.pages_skipped +
        (crawl_comprehensive envAllRich initialState [urlA] none 1).state.pages_failed =
      (crawl_comprehensive envAllRich initialState [urlA] none 1).popped.length :=
  crawl_terminates_and_accounts envAllRich [urlA] 1
    (fun u p hp l hl => by
      injection hp with h
      subst h
      exact absurd hl (List.not_mem_nil l))
    (by decide)

/-- **C10.** `max_pages = 0` imposes no page ceiling: because the guard is
`max_pages and pages_scraped >= max_pages` and `0` is falsy in Python, a
crawl invoked with `max_pages = 0` is identical to one invoked with
`max_pages = None`. -/
theorem max_pages_zero_unlimited (env : CrawlEnv) (st : CrawlerState)
    (seeds : List String) (fuel : Nat) :
    crawl_comprehensive env st seeds (some 0) fuel =
      crawl_comprehensive env st seeds none fuel := by
  unfold crawl_comprehensive
  rw [crawlLoop_max_pages_zero]
